import Mathlib

/-!
Verification of the quota-gated generation pipeline of the Ads-Flow
repository.

The embedding models the two request handlers of the source:

* the backend edge function (`Deno.serve` handler, `src/unnamed/part_000`),
  modelled by `serveGenerate`, and
* the client-side `handleGenerate` event handler (`src/unnamed/part_002`),
  modelled by `handleGenerate`.

JavaScript `Date` values are abstracted to their `getFullYear()` /
`getMonth()` projections, which are the only components the quota logic
reads.  The profile store (Supabase `profiles` row) is modelled by explicit
state passing: each handler takes the stored row and returns the row after
the request.  Outcomes of external collaborators (authentication, profile
fetch, the generation call, and whether a store write lands) are supplied
as an environment record, and each handler additionally returns the list
of external calls it performed, in order.
-/

namespace AdsFlow

/-- A JavaScript `Date`, abstracted to the `getFullYear()` and `getMonth()`
projections used by the quota logic (`getMonth()` is 0-based in JS; the
model allows any integer). -/
structure JSDate where
  year : Int
  month : Int
deriving DecidableEq, Repr

/-- One row of the `profiles` table: the columns selected by the handlers
(`plan, generations_used, generation_reset_date`).  `plan` is a string at
runtime (it comes from the database), even though the source casts it to
the `Plan` union type. -/
structure Profile where
  plan : String
  generations_used : Nat
  generation_reset_date : JSDate
deriving DecidableEq, Repr

/-- `PLAN_LIMITS` record lookup: `some (some n)` for a finite limit,
`some none` for `agency`'s `Infinity`, and `none` when the key is absent
from the record (JS yields `undefined`). -/
def PLAN_LIMITS (plan : String) : Option (Option Nat) :=
  if plan = "free" then some (some 2)
  else if plan = "business" then some (some 15)
  else if plan = "agency" then some none
  else none

/-- `PLAN_LIMITS[profile.plan as Plan] ?? 2`: an absent key falls back to
the free-plan limit 2. -/
def userLimit (plan : String) : Option Nat :=
  (PLAN_LIMITS plan).getD (some 2)

/-- The quota-gate test `currentUsage >= userLimit`.  Against `Infinity`
(`none`) the comparison is false for every finite usage. -/
def limitReached (usage : Nat) : Option Nat → Bool
  | none => false
  | some l => decide (l ≤ usage)

/-- The window-rollover condition, identical in both handlers:
`now.getFullYear() > lastReset.getFullYear() || now.getMonth() > lastReset.getMonth()`. -/
def rollover (now lastReset : JSDate) : Bool :=
  decide (lastReset.year < now.year) || decide (lastReset.month < now.month)

/-- The quota decision inlined in both handlers, extracted as the pure
function the spec calls `evaluate`: post-rollover usage, the allowance
verdict, and whether a rollover was detected. -/
def evaluate (now : JSDate) (p : Profile) : Nat × Bool × Bool :=
  let resetOccurred := rollover now p.generation_reset_date
  let usage := if resetOccurred then 0 else p.generations_used
  let allowed := !(limitReached usage (userLimit p.plan))
  (usage, allowed, resetOccurred)

/-- Outcome of the external `generateContent` call: the promise rejects
(transport error / thrown exception), or it resolves with a response whose
`.text` is the given string (the empty string models an empty body). -/
inductive GenOutcome where
  | throws
  | ok (text : String)
deriving DecidableEq, Repr

/-- External calls a handler can perform, recorded in order. -/
inductive Eff where
  | authCall
  | profileRead
  | genCall
  | persistWrite
deriving DecidableEq, Repr

/-- Collaborator outcomes for one backend request. -/
structure ServerEnv where
  authOk : Bool
  profileOk : Bool
  apiKeyPresent : Bool
  gen : GenOutcome
  persistOk : Bool
deriving DecidableEq, Repr

/-- The distinct responses of the backend handler. -/
inductive ServerResp where
  | missingPrompt
  | missingAuthHeader
  | authFailed
  | profileUnavailable
  | quotaExceeded
  | apiKeyMissing
  | generationThrew
  | emptyResponse
  | success (text : String)
deriving DecidableEq, Repr

/-- HTTP status attached to each backend response in the source. -/
def respStatus : ServerResp → Nat
  | .missingPrompt => 400
  | .missingAuthHeader => 401
  | .authFailed => 401
  | .profileUnavailable => 500
  | .quotaExceeded => 429
  | .apiKeyMissing => 500
  | .generationThrew => 500
  | .emptyResponse => 500
  | .success _ => 200

/-- Result of one backend request: the response, the stored profile row
after the request, and the external calls performed, in order. -/
structure ServerResult where
  resp : ServerResp
  store : Profile
  effects : List Eff
deriving DecidableEq, Repr

/-- The backend `Deno.serve` handler (`src/unnamed/part_000`).  The loaded
profile is the stored row (`env.profileOk = false` models a fetch error).
The final `update` call's result is not inspected by the source, so a
failed write (`env.persistOk = false`) leaves the store unchanged while the
response is unaffected. -/
def serveGenerate (prompt : String) (authHeader : Option String)
    (now : JSDate) (env : ServerEnv) (store : Profile) : ServerResult :=
  if prompt = "" then ⟨.missingPrompt, store, []⟩
  else match authHeader with
  | none => ⟨.missingAuthHeader, store, []⟩
  | some _ =>
    if !env.authOk then ⟨.authFailed, store, [.authCall]⟩
    else if !env.profileOk then ⟨.profileUnavailable, store, [.authCall, .profileRead]⟩
    else
      let profile := store
      let currentUsage :=
        if rollover now profile.generation_reset_date then 0
        else profile.generations_used
      if limitReached currentUsage (userLimit profile.plan) then
        ⟨.quotaExceeded, store, [.authCall, .profileRead]⟩
      else if !env.apiKeyPresent then
        ⟨.apiKeyMissing, store, [.authCall, .profileRead]⟩
      else match env.gen with
      | .throws => ⟨.generationThrew, store, [.authCall, .profileRead, .genCall]⟩
      | .ok text =>
        if text = "" then
          ⟨.emptyResponse, store, [.authCall, .profileRead, .genCall]⟩
        else
          let newUsage := currentUsage + 1
          let newStore :=
            if env.persistOk then
              { profile with
                  generations_used := newUsage,
                  generation_reset_date :=
                    if currentUsage = 0 then now
                    else profile.generation_reset_date }
            else store
          ⟨.success text, newStore, [.authCall, .profileRead, .genCall, .persistWrite]⟩

/-- Collaborator outcomes for one client-side generate click: whether the
rollover-reset write lands, the generation outcome, whether `JSON.parse`
of a non-empty response succeeds, and whether the usage-increment write
lands. -/
structure ClientEnv where
  resetWriteOk : Bool
  gen : GenOutcome
  parseOk : Bool
  incrementWriteOk : Bool
deriving DecidableEq, Repr

/-- The component state read and written by `handleGenerate` in
`src/unnamed/part_002`.  `campaignData` abstracts the parsed draft by the
response text it was parsed from; presentation-only state (theme, sitelink
base URL, ...) is omitted. -/
structure ClientState where
  user : Option String
  profile : Option Profile
  prompt : String
  error : String
  campaignData : Option String
  showAuthModal : Bool
  showUpgradeModal : Bool
  loading : Bool
deriving DecidableEq, Repr

/-- Result of one client-side generate click: the component state after
the handler (including the `finally` block), the stored profile row after
the request, and the external calls performed, in order. -/
structure ClientResult where
  state : ClientState
  store : Profile
  effects : List Eff
deriving DecidableEq, Repr

/-- Error message set on an empty prompt. -/
def promptRequiredMsg : String := "Por favor, descreva o contexto da sua campanha."

/-- Error message set when the quota is exhausted. -/
def limitMsg : String := "Você atingiu o limite de gerações do seu plano. Faça upgrade para continuar."

/-- Error message set when the generation response is empty. -/
def emptyRespMsg : String := "A resposta da IA estava vazia. Tente novamente ou ajuste seu pedido."

/-- Error message set by the `catch` block. -/
def genFailMsg : String := "Ocorreu um erro ao gerar a campanha. Tente novamente."

/-- The client-side `handleGenerate` event handler (`src/unnamed/part_002`).
On rollover the reset (`generations_used = 0`, `generation_reset_date =
now`) is written to the store immediately, before the quota comparison and
the generation call; the local profile state is refreshed only when that
write succeeds.  After a successful generation the increment write sets
`generations_used` only.  `loading` ends false on every path that enters
the `try` block (the `finally` clause). -/
def handleGenerate (s : ClientState) (now : JSDate) (env : ClientEnv)
    (store : Profile) : ClientResult :=
  match s.user, s.profile with
  | none, _ => ⟨{ s with showAuthModal := true }, store, []⟩
  | some _, none => ⟨{ s with showAuthModal := true }, store, []⟩
  | some _, some profile =>
    if s.prompt = "" then
      ⟨{ s with error := promptRequiredMsg }, store, []⟩
    else
      let doReset := rollover now profile.generation_reset_date
      let currentUsage := if doReset then 0 else profile.generations_used
      let resetRow := { store with generations_used := 0, generation_reset_date := now }
      let s1 := if doReset && env.resetWriteOk then { s with profile := some resetRow } else s
      let store1 := if doReset && env.resetWriteOk then resetRow else store
      let eff1 : List Eff := if doReset then [.persistWrite] else []
      if limitReached currentUsage (userLimit profile.plan) then
        ⟨{ s1 with error := limitMsg, showUpgradeModal := true }, store1, eff1⟩
      else
        let s2 := { s1 with loading := false, error := "", campaignData := none }
        match env.gen with
        | .throws => ⟨{ s2 with error := genFailMsg }, store1, eff1 ++ [.genCall]⟩
        | .ok text =>
          if text = "" then
            ⟨{ s2 with error := emptyRespMsg }, store1, eff1 ++ [.genCall]⟩
          else if !env.parseOk then
            ⟨{ s2 with error := genFailMsg }, store1, eff1 ++ [.genCall]⟩
          else
            let s3 := { s2 with campaignData := some text }
            let newUsage := currentUsage + 1
            if env.incrementWriteOk then
              let store2 := { store1 with generations_used := newUsage }
              let localProfile :=
                match s1.profile with
                | some q => some { q with generations_used := newUsage }
                | none => none
              ⟨{ s3 with profile := localProfile }, store2, eff1 ++ [.genCall, .persistWrite]⟩
            else
              ⟨s3, store1, eff1 ++ [.genCall, .persistWrite]⟩

/-! ## Theorems -/

/-- C1 (counterexample): the rollover condition as implemented fires at
`now = (year 2023, month 5)`, `reset = (year 2024, month 0)`, although the
two years differ and `now`'s year is not the greater one — the claim says
no rollover may be reported there. -/
theorem c1_rollover_rule_counterexample :
    rollover ⟨2023, 5⟩ ⟨2024, 0⟩ = true
      ∧ (2023 : Int) ≠ 2024 ∧ ¬ ((2024 : Int) < 2023) := by
  decide

/-- C1 (amended): the implemented rollover condition reports a rollover
iff `now`'s year is greater, or the years are equal and `now`'s month is
greater, **or** `now`'s year is smaller and `now`'s month is greater — the
claim's rule plus the extra smaller-year case. -/
theorem c1_rollover_rule (now lastReset : JSDate) :
    rollover now lastReset = true ↔
      (lastReset.year < now.year
        ∨ (now.year = lastReset.year ∧ lastReset.month < now.month)
        ∨ (now.year < lastReset.year ∧ lastReset.month < now.month)) := by
  simp only [rollover, Bool.or_eq_true, decide_eq_true_eq]
  omega

/-- C3: on an empty prompt the backend handler answers `missingPrompt`
with no external call at all (no credential resolution, no profile read,
no generation) and an unchanged store; likewise the client handler, in a
signed-in session with a loaded profile, sets the prompt-required error
and performs no external call. -/
theorem c3_empty_prompt_short_circuit (authHeader : Option String)
    (now : JSDate) (env : ServerEnv) (store : Profile) (s : ClientState)
    (cenv : ClientEnv) (u : String) (p : Profile) :
    serveGenerate "" authHeader now env store = ⟨.missingPrompt, store, []⟩
    ∧ handleGenerate { s with user := some u, profile := some p, prompt := "" }
        now cenv store
      = ⟨{ s with
             user := some u,
             profile := some p,
             prompt := "",
             error := promptRequiredMsg }, store, []⟩ := by
  constructor
  · simp [serveGenerate]
  · simp [handleGenerate]

/-- C5: for every usage value, the free plan admits a request iff usage is
below 2, the business plan iff usage is below 15, and the agency plan
always (its limit is `Infinity`, never reached by a finite counter). -/
theorem c5_allowance_rule (usage : Nat) :
    (limitReached usage (userLimit "free") = false ↔ usage < 2)
    ∧ (limitReached usage (userLimit "business") = false ↔ usage < 15)
    ∧ limitReached usage (userLimit "agency") = false := by
  refine ⟨?_, ?_, ?_⟩ <;> simp [limitReached, userLimit, PLAN_LIMITS]

/-- C10: any plan string other than `free`, `business`, `agency` falls
back to the free-plan limit 2, so such a request passes the quota gate iff
the post-rollover usage is strictly below 2. -/
theorem c10_unknown_plan_fallback (plan : String) (usage : Nat)
    (h1 : plan ≠ "free") (h2 : plan ≠ "business") (h3 : plan ≠ "agency") :
    userLimit plan = some 2
      ∧ (limitReached usage (userLimit plan) = false ↔ usage < 2) := by
  have hl : userLimit plan = some 2 := by
    simp [userLimit, PLAN_LIMITS, h1, h2, h3]
  refine ⟨hl, ?_⟩
  rw [hl]
  simp [limitReached]

/-- C10 witness: the unknown plan `"pro"` at usage 1. -/
theorem c10_unknown_plan_fallback_witness :
    userLimit "pro" = some 2
      ∧ (limitReached 1 (userLimit "pro") = false ↔ 1 < 2) :=
  c10_unknown_plan_fallback "pro" 1 (by decide) (by decide) (by decide)

/-- C6: a request that passes the prompt, credential and profile gates but
fails the allowance check is answered `quotaExceeded` with HTTP 429 —
distinct from the 400 used for a missing prompt and the 500 used for
server-side failures — the store is untouched and no generation call is
performed. -/
theorem c6_quota_exceeded_rate_limited (prompt a : String) (now : JSDate)
    (env : ServerEnv) (store : Profile)
    (hp : prompt ≠ "") (hauth : env.authOk = true) (hprof : env.profileOk = true)
    (hq : limitReached
        (if rollover now store.generation_reset_date then 0 else store.generations_used)
        (userLimit store.plan) = true) :
    serveGenerate prompt (some a) now env store
        = ⟨.quotaExceeded, store, [.authCall, .profileRead]⟩
      ∧ respStatus .quotaExceeded = 429
      ∧ Eff.genCall ∉ [Eff.authCall, Eff.profileRead]
      ∧ respStatus .missingPrompt = 400
      ∧ respStatus .profileUnavailable = 500 := by
  refine ⟨?_, rfl, by decide, rfl, rfl⟩
  simp [serveGenerate, hp, hauth, hprof, hq]

/-- C6 witness: a free-plan profile at usage 2 in the current window. -/
theorem c6_quota_exceeded_rate_limited_witness :
    serveGenerate "hi" (some "tok") ⟨2025, 5⟩ ⟨true, true, true, .ok "x", true⟩
        ⟨"free", 2, ⟨2025, 5⟩⟩
        = ⟨.quotaExceeded, ⟨"free", 2, ⟨2025, 5⟩⟩, [.authCall, .profileRead]⟩
      ∧ respStatus .quotaExceeded = 429
      ∧ Eff.genCall ∉ [Eff.authCall, Eff.profileRead]
      ∧ respStatus .missingPrompt = 400
      ∧ respStatus .profileUnavailable = 500 :=
  c6_quota_exceeded_rate_limited "hi" "tok" ⟨2025, 5⟩
    ⟨true, true, true, .ok "x", true⟩ ⟨"free", 2, ⟨2025, 5⟩⟩
    (by decide) rfl rfl (by decide)

/-- C2 (counterexample): in the backend handler a request whose quota
check detects a rollover (reset date July 2025, now August 2025) and whose
generation call then throws leaves the stored counter at 2 — the reset was
never persisted, contradicting the claim that the persisted counter is
reset regardless of generation outcome. -/
theorem c2_reset_persistence_counterexample :
    rollover ⟨2025, 7⟩ ⟨2025, 6⟩ = true
      ∧ (serveGenerate "hi" (some "tok") ⟨2025, 7⟩
            ⟨true, true, true, .throws, true⟩ ⟨"free", 2, ⟨2025, 6⟩⟩).resp
          = .generationThrew
      ∧ (serveGenerate "hi" (some "tok") ⟨2025, 7⟩
            ⟨true, true, true, .throws, true⟩ ⟨"free", 2, ⟨2025, 6⟩⟩).store
          = ⟨"free", 2, ⟨2025, 6⟩⟩ := by
  decide

/-- C2 (amended): only the client-side handler persists the rollover reset
before generating: when it detects a rollover, the reset write (usage 0,
reset date `now`) is issued before the generation call, so if the reset
write lands and the generation then fails, the stored row still reflects
the reset.  The backend handler issues no write before generation: any
request whose generation call fails leaves the store exactly as it was. -/
theorem c2_reset_persisted_before_generation (s : ClientState) (u : String)
    (now : JSDate) (cenv : ClientEnv) (store : Profile)
    (prompt a : String) (env : ServerEnv)
    (hu : s.user = some u) (hpp : s.profile = some store)
    (hpr : s.prompt ≠ "")
    (hroll : rollover now store.generation_reset_date = true)
    (hw : cenv.resetWriteOk = true)
    (hcg : cenv.gen = .throws ∨ cenv.gen = .ok "")
    (hp : prompt ≠ "") (hgen : env.gen = .throws ∨ env.gen = .ok "") :
    (handleGenerate s now cenv store).store
        = { store with generations_used := 0, generation_reset_date := now }
      ∧ (handleGenerate s now cenv store).effects = [.persistWrite, .genCall]
      ∧ (serveGenerate prompt (some a) now env store).store = store := by
  have hlim : limitReached 0 (userLimit store.plan) = false := by
    unfold userLimit PLAN_LIMITS limitReached
    rcases h1 : decide (store.plan = "free") <;>
      rcases h2 : decide (store.plan = "business") <;>
        rcases h3 : decide (store.plan = "agency") <;>
          simp_all [limitReached]
  constructor
  · rcases hcg with h | h <;>
      simp [handleGenerate, hu, hpp, hpr, hroll, hw, hlim, h]
  constructor
  · rcases hcg with h | h <;>
      simp [handleGenerate, hu, hpp, hpr, hroll, hw, hlim, h]
  · rcases hgen with h | h <;>
      · rcases hql : limitReached
            (if rollover now store.generation_reset_date then 0
              else store.generations_used) (userLimit store.plan) <;>
          rcases hak : env.apiKeyPresent <;>
            rcases hao : env.authOk <;>
              rcases hpo : env.profileOk <;>
                simp [serveGenerate, hp, h, hql, hak, hao, hpo]

/-- C2 witness: free-plan profile at usage 2, reset date July 2025, a
request in August 2025 whose generation call throws. -/
theorem c2_reset_persisted_before_generation_witness :
    (handleGenerate ⟨some "u", some ⟨"free", 2, ⟨2025, 6⟩⟩, "hi", "", none,
          false, false, false⟩ ⟨2025, 7⟩ ⟨true, .throws, true, true⟩
          ⟨"free", 2, ⟨2025, 6⟩⟩).store
        = { (⟨"free", 2, ⟨2025, 6⟩⟩ : Profile) with
              generations_used := 0,
              generation_reset_date := ⟨2025, 7⟩ }
      ∧ (handleGenerate ⟨some "u", some ⟨"free", 2, ⟨2025, 6⟩⟩, "hi", "", none,
            false, false, false⟩ ⟨2025, 7⟩ ⟨true, .throws, true, true⟩
            ⟨"free", 2, ⟨2025, 6⟩⟩).effects = [.persistWrite, .genCall]
      ∧ (serveGenerate "hi" (some "tok") ⟨2025, 7⟩
            ⟨true, true, true, .throws, true⟩ ⟨"free", 2, ⟨2025, 6⟩⟩).store
          = ⟨"free", 2, ⟨2025, 6⟩⟩ :=
  c2_reset_persisted_before_generation
    ⟨some "u", some ⟨"free", 2, ⟨2025, 6⟩⟩, "hi", "", none, false, false, false⟩
    "u" ⟨2025, 7⟩ ⟨true, .throws, true, true⟩ ⟨"free", 2, ⟨2025, 6⟩⟩
    "hi" "tok" ⟨true, true, true, .throws, true⟩
    rfl rfl (by decide) (by decide) rfl (Or.inl rfl) (by decide) (Or.inl rfl)

/-- C4: a request that reaches the generation call and fails there —
the call throws or the response body is empty — ends with a server-error
(HTTP 500) response of the generation-failure kind and no usage
increment.  Backend: the store is bit-for-bit unchanged.  Client: the
draft stays absent, an error message is set, and the stored row equals the
row after the quota check (unchanged except for a persisted rollover
reset). -/
theorem c4_generation_failure_no_increment (prompt a : String) (now : JSDate)
    (env : ServerEnv) (store : Profile) (s : ClientState) (u : String)
    (cenv : ClientEnv)
    (hp : prompt ≠ "") (hauth : env.authOk = true) (hprof : env.profileOk = true)
    (hq : limitReached
        (if rollover now store.generation_reset_date then 0 else store.generations_used)
        (userLimit store.plan) = false)
    (hkey : env.apiKeyPresent = true)
    (hgen : env.gen = .throws ∨ env.gen = .ok "")
    (hu : s.user = some u) (hpp : s.profile = some store) (hpr : s.prompt ≠ "")
    (hcg : cenv.gen = .throws ∨ cenv.gen = .ok "") :
    ((serveGenerate prompt (some a) now env store).store = store
      ∧ respStatus (serveGenerate prompt (some a) now env store).resp = 500
      ∧ ((serveGenerate prompt (some a) now env store).resp = .generationThrew
          ∨ (serveGenerate prompt (some a) now env store).resp = .emptyResponse))
    ∧ ((handleGenerate s now cenv store).store
          = (if rollover now store.generation_reset_date && cenv.resetWriteOk
              then { store with generations_used := 0, generation_reset_date := now }
              else store)
        ∧ (handleGenerate s now cenv store).state.campaignData = none
        ∧ (handleGenerate s now cenv store).state.error ≠ "") := by
  constructor
  · rcases hgen with h | h <;>
      simp [serveGenerate, hp, hauth, hprof, hq, hkey, h, respStatus]
  · have hq' : limitReached
        (if rollover now store.generation_reset_date then 0 else store.generations_used)
        (userLimit store.plan) = false := hq
    rcases hcg with h | h <;>
      rcases hr : rollover now store.generation_reset_date <;>
        rcases hw : cenv.resetWriteOk <;>
          simp_all [handleGenerate, hu, hpp, hpr, h, genFailMsg, emptyRespMsg]

/-- C4 witness: business-plan profile at usage 10 in the current window;
the generation call throws on both handlers. -/
theorem c4_generation_failure_no_increment_witness :
    ((serveGenerate "hi" (some "tok") ⟨2025, 6⟩
          ⟨true, true, true, .throws, true⟩ ⟨"business", 10, ⟨2025, 6⟩⟩).store
        = ⟨"business", 10, ⟨2025, 6⟩⟩
      ∧ respStatus (serveGenerate "hi" (some "tok") ⟨2025, 6⟩
          ⟨true, true, true, .throws, true⟩ ⟨"business", 10, ⟨2025, 6⟩⟩).resp = 500
      ∧ ((serveGenerate "hi" (some "tok") ⟨2025, 6⟩
            ⟨true, true, true, .throws, true⟩ ⟨"business", 10, ⟨2025, 6⟩⟩).resp
              = .generationThrew
          ∨ (serveGenerate "hi" (some "tok") ⟨2025, 6⟩
              ⟨true, true, true, .throws, true⟩ ⟨"business", 10, ⟨2025, 6⟩⟩).resp
              = .emptyResponse))
    ∧ ((handleGenerate ⟨some "u", some ⟨"business", 10, ⟨2025, 6⟩⟩, "hi", "",
            none, false, false, false⟩ ⟨2025, 6⟩ ⟨true, .throws, true, true⟩
            ⟨"business", 10, ⟨2025, 6⟩⟩).store
          = (if rollover ⟨2025, 6⟩ (⟨2025, 6⟩ : JSDate) && true
              then { (⟨"business", 10, ⟨2025, 6⟩⟩ : Profile) with
                       generations_used := 0,
                       generation_reset_date := ⟨2025, 6⟩ }
              else ⟨"business", 10, ⟨2025, 6⟩⟩)
        ∧ (handleGenerate ⟨some "u", some ⟨"business", 10, ⟨2025, 6⟩⟩, "hi", "",
              none, false, false, false⟩ ⟨2025, 6⟩ ⟨true, .throws, true, true⟩
              ⟨"business", 10, ⟨2025, 6⟩⟩).state.campaignData = none
        ∧ (handleGenerate ⟨some "u", some ⟨"business", 10, ⟨2025, 6⟩⟩, "hi", "",
              none, false, false, false⟩ ⟨2025, 6⟩ ⟨true, .throws, true, true⟩
              ⟨"business", 10, ⟨2025, 6⟩⟩).state.error ≠ "") :=
  c4_generation_failure_no_increment "hi" "tok" ⟨2025, 6⟩
    ⟨true, true, true, .throws, true⟩ ⟨"business", 10, ⟨2025, 6⟩⟩
    ⟨some "u", some ⟨"business", 10, ⟨2025, 6⟩⟩, "hi", "", none, false, false, false⟩
    "u" ⟨true, .throws, true, true⟩
    (by decide) rfl rfl (by decide) rfl (Or.inl rfl) rfl rfl (by decide) (Or.inl rfl)

/-- C7: a request whose generation call succeeds (non-empty, parseable
response) and whose writes land increments the stored counter by exactly
one over the post-rollover usage and returns the draft; when the quota
check had detected a rollover, the stored counter afterwards is 1 and the
stored reset date is `now`.  Proved for both the backend handler and the
client handler. -/
theorem c7_success_increments_once (prompt a text : String) (now : JSDate)
    (env : ServerEnv) (store : Profile) (s : ClientState) (u : String)
    (cenv : ClientEnv)
    (hp : prompt ≠ "") (hauth : env.authOk = true) (hprof : env.profileOk = true)
    (hq : limitReached
        (if rollover now store.generation_reset_date then 0 else store.generations_used)
        (userLimit store.plan) = false)
    (hkey : env.apiKeyPresent = true)
    (hgen : env.gen = .ok text) (ht : text ≠ "") (hw : env.persistOk = true)
    (hu : s.user = some u) (hpp : s.profile = some store) (hpr : s.prompt ≠ "")
    (hcg : cenv.gen = .ok text) (hparse : cenv.parseOk = true)
    (hrw : cenv.resetWriteOk = true) (hiw : cenv.incrementWriteOk = true) :
    ((serveGenerate prompt (some a) now env store).resp = .success text
      ∧ (serveGenerate prompt (some a) now env store).store.generations_used
          = (if rollover now store.generation_reset_date then 0
              else store.generations_used) + 1
      ∧ (rollover now store.generation_reset_date = true →
          (serveGenerate prompt (some a) now env store).store.generations_used = 1
          ∧ (serveGenerate prompt (some a) now env store).store.generation_reset_date
              = now))
    ∧ ((handleGenerate s now cenv store).state.campaignData = some text
      ∧ (handleGenerate s now cenv store).store.generations_used
          = (if rollover now store.generation_reset_date then 0
              else store.generations_used) + 1
      ∧ (rollover now store.generation_reset_date = true →
          (handleGenerate s now cenv store).store.generations_used = 1
          ∧ (handleGenerate s now cenv store).store.generation_reset_date = now)) := by
  constructor
  · rcases hr : rollover now store.generation_reset_date <;>
      simp_all [serveGenerate, hp, hauth, hprof, hkey, hgen, ht, hw]
  · rcases hr : rollover now store.generation_reset_date <;>
      simp_all [handleGenerate, hu, hpp, hpr, hcg, hparse, hrw, hiw, ht]

/-- C7 witness: scenario B of the spec — free-plan profile at usage 2,
reset date two months old, generation succeeds; the stored counter ends at
1 and the stored reset date is the request time. -/
theorem c7_success_increments_once_witness :
    ((serveGenerate "hi" (some "tok") ⟨2025, 8⟩
          ⟨true, true, true, .ok "draft", true⟩ ⟨"free", 2, ⟨2025, 6⟩⟩).resp
        = .success "draft"
      ∧ (serveGenerate "hi" (some "tok") ⟨2025, 8⟩
          ⟨true, true, true, .ok "draft", true⟩ ⟨"free", 2, ⟨2025, 6⟩⟩).store.generations_used
          = (if rollover ⟨2025, 8⟩ (⟨2025, 6⟩ : JSDate) then 0 else 2) + 1
      ∧ (rollover ⟨2025, 8⟩ (⟨2025, 6⟩ : JSDate) = true →
          (serveGenerate "hi" (some "tok") ⟨2025, 8⟩
            ⟨true, true, true, .ok "draft", true⟩ ⟨"free", 2, ⟨2025, 6⟩⟩).store.generations_used = 1
          ∧ (serveGenerate "hi" (some "tok") ⟨2025, 8⟩
              ⟨true, true, true, .ok "draft", true⟩ ⟨"free", 2, ⟨2025, 6⟩⟩).store.generation_reset_date
              = ⟨2025, 8⟩))
    ∧ ((handleGenerate ⟨some "u", some ⟨"free", 2, ⟨2025, 6⟩⟩, "hi", "", none,
            false, false, false⟩ ⟨2025, 8⟩ ⟨true, .ok "draft", true, true⟩
            ⟨"free", 2, ⟨2025, 6⟩⟩).state.campaignData = some "draft"
      ∧ (handleGenerate ⟨some "u", some ⟨"free", 2, ⟨2025, 6⟩⟩, "hi", "", none,
            false, false, false⟩ ⟨2025, 8⟩ ⟨true, .ok "draft", true, true⟩
            ⟨"free", 2, ⟨2025, 6⟩⟩).store.generations_used
          = (if rollover ⟨2025, 8⟩ (⟨2025, 6⟩ : JSDate) then 0 else 2) + 1
      ∧ (rollover ⟨2025, 8⟩ (⟨2025, 6⟩ : JSDate) = true →
          (handleGenerate ⟨some "u", some ⟨"free", 2, ⟨2025, 6⟩⟩, "hi", "", none,
              false, false, false⟩ ⟨2025, 8⟩ ⟨true, .ok "draft", true, true⟩
              ⟨"free", 2, ⟨2025, 6⟩⟩).store.generations_used = 1
          ∧ (handleGenerate ⟨some "u", some ⟨"free", 2, ⟨2025, 6⟩⟩, "hi", "", none,
              false, false, false⟩ ⟨2025, 8⟩ ⟨true, .ok "draft", true, true⟩
              ⟨"free", 2, ⟨2025, 6⟩⟩).store.generation_reset_date = ⟨2025, 8⟩)) :=
  c7_success_increments_once "hi" "tok" "draft" ⟨2025, 8⟩
    ⟨true, true, true, .ok "draft", true⟩ ⟨"free", 2, ⟨2025, 6⟩⟩
    ⟨some "u", some ⟨"free", 2, ⟨2025, 6⟩⟩, "hi", "", none, false, false, false⟩
    "u" ⟨true, .ok "draft", true, true⟩
    (by decide) rfl rfl (by decide) rfl rfl (by decide) rfl
    rfl rfl (by decide) rfl rfl rfl rfl

/-- C8: when the generation call succeeds but the usage-persistence write
fails, the draft is still delivered as a success.  Backend: the response
is the generated text with HTTP 200, the store merely keeps its old value.
Client: the draft is set and the error message stays empty. -/
theorem c8_persistence_failure_still_success (prompt a text : String)
    (now : JSDate) (env : ServerEnv) (store : Profile) (s : ClientState)
    (u : String) (cenv : ClientEnv)
    (hp : prompt ≠ "") (hauth : env.authOk = true) (hprof : env.profileOk = true)
    (hq : limitReached
        (if rollover now store.generation_reset_date then 0 else store.generations_used)
        (userLimit store.plan) = false)
    (hkey : env.apiKeyPresent = true)
    (hgen : env.gen = .ok text) (ht : text ≠ "") (hw : env.persistOk = false)
    (hu : s.user = some u) (hpp : s.profile = some store) (hpr : s.prompt ≠ "")
    (hcg : cenv.gen = .ok text) (hparse : cenv.parseOk = true)
    (hiw : cenv.incrementWriteOk = false) :
    (serveGenerate prompt (some a) now env store
        = ⟨.success text, store, [.authCall, .profileRead, .genCall, .persistWrite]⟩
      ∧ respStatus (.success text) = 200)
    ∧ ((handleGenerate s now cenv store).state.campaignData = some text
      ∧ (handleGenerate s now cenv store).state.error = "") := by
  refine ⟨⟨?_, rfl⟩, ?_⟩
  · simp [serveGenerate, hp, hauth, hprof, hq, hkey, hgen, ht, hw]
  · rcases hr : rollover now store.generation_reset_date <;>
      rcases hrw : cenv.resetWriteOk <;>
        simp_all [handleGenerate, hu, hpp, hpr, hcg, hparse, hiw, ht]

/-- C8 witness: free-plan profile at usage 0 this month; generation
succeeds, the usage write fails, the draft is still returned. -/
theorem c8_persistence_failure_still_success_witness :
    (serveGenerate "hi" (some "tok") ⟨2025, 6⟩
          ⟨true, true, true, .ok "draft", false⟩ ⟨"free", 0, ⟨2025, 6⟩⟩
        = ⟨.success "draft", ⟨"free", 0, ⟨2025, 6⟩⟩,
            [.authCall, .profileRead, .genCall, .persistWrite]⟩
      ∧ respStatus (.success "draft") = 200)
    ∧ ((handleGenerate ⟨some "u", some ⟨"free", 0, ⟨2025, 6⟩⟩, "hi", "", none,
            false, false, false⟩ ⟨2025, 6⟩ ⟨true, .ok "draft", true, false⟩
            ⟨"free", 0, ⟨2025, 6⟩⟩).state.campaignData = some "draft"
      ∧ (handleGenerate ⟨some "u", some ⟨"free", 0, ⟨2025, 6⟩⟩, "hi", "", none,
            false, false, false⟩ ⟨2025, 6⟩ ⟨true, .ok "draft", true, false⟩
            ⟨"free", 0, ⟨2025, 6⟩⟩).state.error = "") :=
  c8_persistence_failure_still_success "hi" "tok" "draft" ⟨2025, 6⟩
    ⟨true, true, true, .ok "draft", false⟩ ⟨"free", 0, ⟨2025, 6⟩⟩
    ⟨some "u", some ⟨"free", 0, ⟨2025, 6⟩⟩, "hi", "", none, false, false, false⟩
    "u" ⟨true, .ok "draft", true, false⟩
    (by decide) rfl rfl (by decide) rfl rfl (by decide) rfl
    rfl rfl (by decide) rfl rfl rfl

/-- C9: the quota decision is a pure function of `now` and the profile's
plan, counter and reset date — two profiles agreeing on those fields get
identical `(usage, allowed, resetOccurred)` triples — and the backend
handler's quota verdict agrees with that function: a gate-passing request
is answered `quotaExceeded` exactly when `evaluate` denies it. -/
theorem c9_quota_decision_deterministic :
    (∀ (now : JSDate) (p q : Profile), p.plan = q.plan →
        p.generations_used = q.generations_used →
        p.generation_reset_date = q.generation_reset_date →
        evaluate now p = evaluate now q)
    ∧ ∀ (prompt a : String) (now : JSDate) (env : ServerEnv) (store : Profile),
        prompt ≠ "" → env.authOk = true → env.profileOk = true →
        ((serveGenerate prompt (some a) now env store).resp = .quotaExceeded
          ↔ (evaluate now store).2.1 = false) := by
  constructor
  · intro now p q h1 h2 h3
    cases p
    cases q
    simp_all [evaluate]
  · intro prompt a now env store hp hauth hprof
    rcases hg : env.gen with _ | text <;>
      rcases hql : limitReached
          (if rollover now store.generation_reset_date then 0
            else store.generations_used) (userLimit store.plan) <;>
        rcases hak : env.apiKeyPresent <;>
          (simp_all [serveGenerate, evaluate]
           all_goals (split <;> simp))

/-- C9 witness: two evaluations at identical inputs coincide, and the
backend verdict matches `evaluate` on a free-plan profile at usage 1. -/
theorem c9_quota_decision_deterministic_witness :
    evaluate ⟨2025, 6⟩ ⟨"free", 1, ⟨2025, 6⟩⟩
        = evaluate ⟨2025, 6⟩ ⟨"free", 1, ⟨2025, 6⟩⟩
      ∧ ((serveGenerate "hi" (some "tok") ⟨2025, 6⟩
            ⟨true, true, true, .ok "x", true⟩ ⟨"free", 1, ⟨2025, 6⟩⟩).resp
          = .quotaExceeded
        ↔ (evaluate ⟨2025, 6⟩ ⟨"free", 1, ⟨2025, 6⟩⟩).2.1 = false) :=
  ⟨c9_quota_decision_deterministic.1 ⟨2025, 6⟩ ⟨"free", 1, ⟨2025, 6⟩⟩
      ⟨"free", 1, ⟨2025, 6⟩⟩ rfl rfl rfl,
    c9_quota_decision_deterministic.2 "hi" "tok" ⟨2025, 6⟩
      ⟨true, true, true, .ok "x", true⟩ ⟨"free", 1, ⟨2025, 6⟩⟩
      (by decide) rfl rfl⟩

end AdsFlow
